import Mathlib

/-!
# Shallow embedding of the FFmpeg RTMP bridge session layer

This file embeds the session state machine and the video/audio pipelines of
`UnityProject/Plugins/Native/ffmpeg_rtmp_bridge.c` as pure Lean functions.

The global `g_rtmp` struct becomes the `Session` structure (pointer fields are
tracked as `Bool`: the field is non-NULL).  All behaviour of the external
FFmpeg library calls (allocations, encoder open, packet drain sequences, muxer
write results) is supplied by an `Env` oracle structure, so each C function
becomes a pure function `Env → Session → args → Session × RTMPResult × List Event`.
The `List Event` component records which external pipeline calls were invoked
(colour conversion, encoder submit, muxer writes, trailer write), which the
claims about "no pipeline work" and flush ordering are about.

The mutex is not modelled: every public operation holds it for its whole body,
so the model is the sequential semantics of the C code.
-/

namespace RTMPBridge

/-- States of the stream, from `RTMPState` in ffmpeg_rtmp_bridge.h
(`RTMP_STATE_ERROR` is declared but never assigned in the bridge, so it is
omitted). -/
inductive RTMPState
  | idle
  | initialized
  | connected
  | streaming
  deriving DecidableEq, Repr

/-- Result codes, from the `RTMP_SUCCESS` / `RTMP_ERROR_*` defines in
ffmpeg_rtmp_bridge.h. -/
inductive RTMPResult
  | success
  | initFailed
  | connectFailed
  | encodeFailed
  | sendFailed
  | notConnected
  | invalidParams
  | allocFailed
  deriving DecidableEq, Repr

/-- Which stream a packet is tagged for (`packet->stream_index`). -/
inductive StreamTag
  | video
  | audio
  deriving DecidableEq, Repr

/-- External calls a bridge operation makes on the FFmpeg library, in order.
Only the calls the specification talks about are recorded. -/
inductive Event
  | evSwsScale
  | evSwrConvert
  | evSendFrame (tag : StreamTag)
  | evSendEOF
  | evWritePacket (tag : StreamTag) (size : Nat)
  | evWriteTrailer
  | evCloseIO
  deriving DecidableEq, Repr

/-- One step of an `avcodec_receive_packet` drain loop: the encoder hands out a
packet (whose muxer write will succeed or fail), reports EAGAIN/EOF (`stop`,
also modelled by the end of the list), or errors out (`fail`). -/
inductive RecvStep
  | pkt (size : Nat) (write_ok : Bool)
  | stop
  | fail
  deriving DecidableEq, Repr

/-- `RTMPConfig` from ffmpeg_rtmp_bridge.h; C `int` fields are modelled as
`Int`. -/
structure RTMPConfig where
  width : Int
  height : Int
  fps : Int
  bitrate_kbps : Int
  keyframe_interval : Int
  audio_sample_rate : Int
  audio_channels : Int
  audio_bitrate_kbps : Int
  deriving DecidableEq, Repr

/-- The global `g_rtmp` struct.  Pointer members are tracked as `Bool`
("the field is non-NULL"); `pb` is `format_ctx->pb`, the open transport
handle. -/
structure Session where
  state : RTMPState
  config : RTMPConfig
  error_msg : String
  format_ctx : Bool
  video_codec_ctx : Bool
  audio_codec_ctx : Bool
  video_stream : Bool
  audio_stream : Bool
  sws_ctx : Bool
  swr_ctx : Bool
  video_frame : Bool
  audio_frame : Bool
  packet : Bool
  pb : Bool
  bytes_sent : Int
  frames_sent : Int
  dropped_frames : Int
  start_time : Int
  deriving DecidableEq, Repr

/-- Oracle for the behaviour of the external FFmpeg calls: which
allocations/opens succeed, what the encoders emit when drained, whether each
muxer write succeeds, and the current time. -/
structure Env where
  packet_alloc_ok : Bool
  alloc_output_ok : Bool
  find_h264_ok : Bool
  new_video_stream_ok : Bool
  alloc_video_ctx_ok : Bool
  open_video_codec_ok : Bool
  video_params_ok : Bool
  alloc_video_frame_ok : Bool
  video_frame_buffer_ok : Bool
  sws_get_ok : Bool
  find_aac_ok : Bool
  new_audio_stream_ok : Bool
  alloc_audio_ctx_ok : Bool
  open_audio_codec_ok : Bool
  audio_params_ok : Bool
  alloc_audio_frame_ok : Bool
  audio_frame_buffer_ok : Bool
  swr_alloc_ok : Bool
  swr_init_ok : Bool
  format_nofile : Bool
  avio_open_ok : Bool
  write_header_ok : Bool
  video_frame_writable_ok : Bool
  video_send_frame_ok : Bool
  video_recv : List RecvStep
  audio_frame_writable_ok : Bool
  swr_convert_ok : Bool
  audio_send_frame_ok : Bool
  audio_recv : List RecvStep
  flush_recv : List Nat
  now : Int
  deriving DecidableEq, Repr

/-- `g_rtmp = {0}`: the zero-initialised global before any call. -/
def initialSession : Session where
  state := RTMPState.idle
  config := ⟨0, 0, 0, 0, 0, 0, 0, 0⟩
  error_msg := ""
  format_ctx := false
  video_codec_ctx := false
  audio_codec_ctx := false
  video_stream := false
  audio_stream := false
  sws_ctx := false
  swr_ctx := false
  video_frame := false
  audio_frame := false
  packet := false
  pb := false
  bytes_sent := 0
  frames_sent := 0
  dropped_frames := 0
  start_time := 0

/-- `SET_ERROR(...)`: overwrite the single last-error slot.  The
`av_err2str` suffixes of the C format strings are not modelled. -/
def setError (s : Session) (msg : String) : Session :=
  { s with error_msg := msg }

/-- `init_video_encoder` (ffmpeg_rtmp_bridge.c:245-343).  Codec parameter
programming (bitrate, gop, preset, ...) configures the external codec context
and is not tracked; only the allocation/rollback structure is. -/
def init_video_encoder (env : Env) (s : Session) : Session × RTMPResult :=
  if !env.find_h264_ok then
    (setError s "H.264 encoder not found", RTMPResult.initFailed)
  else if !env.new_video_stream_ok then
    (setError s "Failed to create video stream", RTMPResult.initFailed)
  else
    let s1 := { s with video_stream := true }
    if !env.alloc_video_ctx_ok then
      (setError s1 "Failed to allocate video codec context", RTMPResult.allocFailed)
    else
      let s2 := { s1 with video_codec_ctx := true }
      if !env.open_video_codec_ok then
        ({ setError s2 "Failed to open video encoder" with video_codec_ctx := false },
          RTMPResult.initFailed)
      else if !env.video_params_ok then
        ({ setError s2 "Failed to copy codec params" with video_codec_ctx := false },
          RTMPResult.initFailed)
      else if !env.alloc_video_frame_ok then
        ({ setError s2 "Failed to allocate video frame" with video_codec_ctx := false },
          RTMPResult.allocFailed)
      else
        let s3 := { s2 with video_frame := true }
        if !env.video_frame_buffer_ok then
          ({ setError s3 "Failed to allocate video frame buffer" with
              video_frame := false, video_codec_ctx := false }, RTMPResult.allocFailed)
        else if !env.sws_get_ok then
          ({ setError s3 "Failed to create scaler context" with
              video_frame := false, video_codec_ctx := false }, RTMPResult.initFailed)
        else
          ({ s3 with sws_ctx := true }, RTMPResult.success)

/-- `init_audio_encoder` (ffmpeg_rtmp_bridge.c:345-460). -/
def init_audio_encoder (env : Env) (s : Session) : Session × RTMPResult :=
  if !env.find_aac_ok then
    (setError s "AAC encoder not found", RTMPResult.initFailed)
  else if !env.new_audio_stream_ok then
    (setError s "Failed to create audio stream", RTMPResult.initFailed)
  else
    let s1 := { s with audio_stream := true }
    if !env.alloc_audio_ctx_ok then
      (setError s1 "Failed to allocate audio codec context", RTMPResult.allocFailed)
    else
      let s2 := { s1 with audio_codec_ctx := true }
      if !env.open_audio_codec_ok then
        ({ setError s2 "Failed to open audio encoder" with audio_codec_ctx := false },
          RTMPResult.initFailed)
      else if !env.audio_params_ok then
        ({ setError s2 "Failed to copy audio codec params" with audio_codec_ctx := false },
          RTMPResult.initFailed)
      else if !env.alloc_audio_frame_ok then
        ({ setError s2 "Failed to allocate audio frame" with audio_codec_ctx := false },
          RTMPResult.allocFailed)
      else
        let s3 := { s2 with audio_frame := true }
        if !env.audio_frame_buffer_ok then
          ({ setError s3 "Failed to allocate audio frame buffer" with
              audio_frame := false, audio_codec_ctx := false }, RTMPResult.allocFailed)
        else if !env.swr_alloc_ok then
          ({ setError s3 "Failed to allocate resampler" with
              audio_frame := false, audio_codec_ctx := false }, RTMPResult.allocFailed)
        else
          let s4 := { s3 with swr_ctx := true }
          if !env.swr_init_ok then
            ({ setError s4 "Failed to init resampler" with
                swr_ctx := false, audio_frame := false, audio_codec_ctx := false },
              RTMPResult.initFailed)
          else
            (s4, RTMPResult.success)

/-- The `avcodec_receive_packet` / `av_interleaved_write_frame` loop of
`encode_and_send_video` (ffmpeg_rtmp_bridge.c:538-566), followed by the
`frames_sent++` on normal loop exit. -/
def drainVideo (s : Session) : List RecvStep → Session × RTMPResult × List Event
  | [] =>
      ({ s with frames_sent := s.frames_sent + 1 }, RTMPResult.success, [])
  | RecvStep.stop :: _ =>
      ({ s with frames_sent := s.frames_sent + 1 }, RTMPResult.success, [])
  | RecvStep.fail :: _ =>
      (setError s "Error receiving packet", RTMPResult.encodeFailed, [])
  | RecvStep.pkt size write_ok :: rest =>
      if write_ok then
        let r := drainVideo { s with bytes_sent := s.bytes_sent + size } rest
        (r.1, r.2.1, Event.evWritePacket StreamTag.video size :: r.2.2)
      else
        ({ setError s "Failed to write video packet" with
            dropped_frames := s.dropped_frames + 1 },
          RTMPResult.sendFailed, [Event.evWritePacket StreamTag.video size])

/-- `encode_and_send_video` (ffmpeg_rtmp_bridge.c:504-567): make the frame
writable, run `sws_scale`, rescale the pts, submit, drain.  The pts
arithmetic targets the external codec context and is not tracked. -/
def encode_and_send_video (env : Env) (s : Session) (_pts : Int) :
    Session × RTMPResult × List Event :=
  if !env.video_frame_writable_ok then
    (setError s "Failed to make frame writable", RTMPResult.encodeFailed, [])
  else if !env.video_send_frame_ok then
    (setError s "Failed to send frame to encoder", RTMPResult.encodeFailed,
      [Event.evSwsScale, Event.evSendFrame StreamTag.video])
  else
    let r := drainVideo s env.video_recv
    (r.1, r.2.1, Event.evSwsScale :: Event.evSendFrame StreamTag.video :: r.2.2)

/-- The drain loop of `encode_and_send_audio` (ffmpeg_rtmp_bridge.c:624-646):
like the video drain but with no error message, no `frames_sent` and no
`dropped_frames` update. -/
def drainAudio (s : Session) : List RecvStep → Session × RTMPResult × List Event
  | [] => (s, RTMPResult.success, [])
  | RecvStep.stop :: _ => (s, RTMPResult.success, [])
  | RecvStep.fail :: _ => (s, RTMPResult.encodeFailed, [])
  | RecvStep.pkt size write_ok :: rest =>
      if write_ok then
        let r := drainAudio { s with bytes_sent := s.bytes_sent + size } rest
        (r.1, r.2.1, Event.evWritePacket StreamTag.audio size :: r.2.2)
      else
        (s, RTMPResult.sendFailed, [Event.evWritePacket StreamTag.audio size])

/-- `encode_and_send_audio` (ffmpeg_rtmp_bridge.c:587-647). -/
def encode_and_send_audio (env : Env) (s : Session) (_num_samples : Int) (_pts : Int) :
    Session × RTMPResult × List Event :=
  if !env.audio_frame_writable_ok then
    (s, RTMPResult.encodeFailed, [])
  else if !env.swr_convert_ok then
    (s, RTMPResult.encodeFailed, [Event.evSwrConvert])
  else if !env.audio_send_frame_ok then
    (s, RTMPResult.encodeFailed, [Event.evSwrConvert, Event.evSendFrame StreamTag.audio])
  else
    let r := drainAudio s env.audio_recv
    (r.1, r.2.1, Event.evSwrConvert :: Event.evSendFrame StreamTag.audio :: r.2.2)

/-- `rtmp_disconnect` (ffmpeg_rtmp_bridge.c:660-721): flush the video encoder
and write the trailer when a muxer context exists, close the transport, then
unconditionally release every pipeline resource and fall back to
`RTMP_STATE_INITIALIZED`.  Flush writes ignore the muxer result and do not
touch `bytes_sent`, exactly as in the C loop. -/
def rtmp_disconnect (env : Env) (s : Session) : Session × RTMPResult × List Event :=
  let r1 :=
    if s.format_ctx then
      let evFlush :=
        if s.video_codec_ctx then
          Event.evSendEOF ::
            env.flush_recv.map (fun size => Event.evWritePacket StreamTag.video size)
        else []
      let ev := evFlush ++ [Event.evWriteTrailer]
      if !env.format_nofile then ({ s with pb := false }, ev ++ [Event.evCloseIO])
      else (s, ev)
    else (s, [])
  let s2 := { r1.1 with
    sws_ctx := false
    swr_ctx := false
    video_frame := false
    audio_frame := false
    video_codec_ctx := false
    audio_codec_ctx := false
    format_ctx := false
    video_stream := false
    audio_stream := false
    state := RTMPState.initialized }
  (s2, RTMPResult.success, r1.2)

/-- `rtmp_cleanup` (ffmpeg_rtmp_bridge.c:723-735): disconnect, free the
session packet buffer, go back to Idle.  The C function returns void. -/
def rtmp_cleanup (env : Env) (s : Session) : Session × List Event :=
  let r := rtmp_disconnect env s
  ({ r.1 with packet := false, state := RTMPState.idle }, r.2.2)

/-- `rtmp_init_simple` (ffmpeg_rtmp_bridge.c:107-166): validate the four video
parameters, tear down any existing session, store the config with defaults
for the non-positive optional fields, reset statistics, allocate the packet
buffer, move to Initialized. -/
def rtmp_init_simple (env : Env) (s : Session)
    (width height fps bitrate_kbps keyframe_interval audio_sample_rate
      audio_channels audio_bitrate_kbps : Int) :
    Session × RTMPResult × List Event :=
  if width ≤ 0 ∨ height ≤ 0 ∨ fps ≤ 0 ∨ bitrate_kbps ≤ 0 then
    (setError s ("Invalid video parameters: " ++ toString width ++ "x" ++
        toString height ++ " @ " ++ toString fps ++ "fps, " ++
        toString bitrate_kbps ++ "kbps"),
      RTMPResult.invalidParams, [])
  else
    let r0 := if s.state ≠ RTMPState.idle then rtmp_cleanup env s else (s, [])
    let cfg : RTMPConfig :=
      { width := width
        height := height
        fps := fps
        bitrate_kbps := bitrate_kbps
        keyframe_interval := if keyframe_interval > 0 then keyframe_interval else 2
        audio_sample_rate := if audio_sample_rate > 0 then audio_sample_rate else 44100
        audio_channels := if audio_channels > 0 then audio_channels else 2
        audio_bitrate_kbps := if audio_bitrate_kbps > 0 then audio_bitrate_kbps else 128 }
    let s2 := { r0.1 with
      config := cfg, bytes_sent := 0, frames_sent := 0, dropped_frames := 0 }
    if !env.packet_alloc_ok then
      (setError s2 "Failed to allocate packet", RTMPResult.allocFailed, r0.2)
    else
      ({ s2 with packet := true, state := RTMPState.initialized, error_msg := "" },
        RTMPResult.success, r0.2)

/-- `rtmp_init` (ffmpeg_rtmp_bridge.c:89-105) for a non-NULL config. -/
def rtmp_init (env : Env) (s : Session) (config : RTMPConfig) :
    Session × RTMPResult × List Event :=
  rtmp_init_simple env s config.width config.height config.fps config.bitrate_kbps
    config.keyframe_interval config.audio_sample_rate config.audio_channels
    config.audio_bitrate_kbps

/-- `rtmp_connect` (ffmpeg_rtmp_bridge.c:168-243) for a non-NULL url. -/
def rtmp_connect (env : Env) (s : Session) (url : String) :
    Session × RTMPResult × List Event :=
  if url = "" then
    (setError s "URL is NULL or empty", RTMPResult.invalidParams, [])
  else if s.state ≠ RTMPState.initialized then
    (setError s "Not initialized. Call rtmp_init first.", RTMPResult.notConnected, [])
  else if !env.alloc_output_ok then
    (setError s "Failed to create output context", RTMPResult.initFailed, [])
  else
    let s1 := { s with format_ctx := true }
    let rv := init_video_encoder env s1
    if rv.2 ≠ RTMPResult.success then
      ({ rv.1 with format_ctx := false }, rv.2, [])
    else
      let ra := init_audio_encoder env rv.1
      let s3 := ra.1
      if !env.format_nofile && !env.avio_open_ok then
        ({ setError s3 ("Failed to open connection to " ++ url) with
            video_codec_ctx := false, format_ctx := false },
          RTMPResult.connectFailed, [])
      else
        let s4 := if !env.format_nofile then { s3 with pb := true } else s3
        if !env.write_header_ok then
          ({ setError s4 "Failed to write header" with
              pb := false, video_codec_ctx := false, format_ctx := false },
            RTMPResult.connectFailed, [])
        else
          ({ s4 with start_time := env.now, state := RTMPState.connected },
            RTMPResult.success, [])

/-- `rtmp_start_streaming` (ffmpeg_rtmp_bridge.c:462-476). -/
def rtmp_start_streaming (env : Env) (s : Session) : Session × RTMPResult × List Event :=
  if s.state ≠ RTMPState.connected then
    (setError s "Not connected. Call rtmp_connect first.", RTMPResult.notConnected, [])
  else
    ({ s with state := RTMPState.streaming, start_time := env.now },
      RTMPResult.success, [])

/-- `rtmp_stop_streaming` (ffmpeg_rtmp_bridge.c:649-658): note the function
returns `RTMP_SUCCESS` whatever the state. -/
def rtmp_stop_streaming (s : Session) : Session × RTMPResult × List Event :=
  if s.state = RTMPState.streaming then
    ({ s with state := RTMPState.connected }, RTMPResult.success, [])
  else
    (s, RTMPResult.success, [])

/-- `rtmp_send_video_frame` (ffmpeg_rtmp_bridge.c:478-502).  The caller's
buffer is modelled by its NULL-ness and its byte length `data_size`. -/
def rtmp_send_video_frame (env : Env) (s : Session) (rgba_null : Bool)
    (data_size : Int) (pts : Int) : Session × RTMPResult × List Event :=
  if rgba_null then
    (setError s "RGBA data is NULL", RTMPResult.invalidParams, [])
  else
    let expected_size := s.config.width * s.config.height * 4
    if data_size ≠ expected_size then
      (setError s ("Invalid data size: expected " ++ toString expected_size ++
          ", got " ++ toString data_size),
        RTMPResult.invalidParams, [])
    else if s.state ≠ RTMPState.streaming then
      (setError s "Not streaming", RTMPResult.notConnected, [])
    else
      encode_and_send_video env s pts

/-- `rtmp_send_audio` (ffmpeg_rtmp_bridge.c:569-585): invalid arguments fail,
and a missing audio pipeline (or not streaming) silently succeeds. -/
def rtmp_send_audio (env : Env) (s : Session) (pcm_null : Bool)
    (num_samples : Int) (pts : Int) : Session × RTMPResult × List Event :=
  if pcm_null ∨ num_samples ≤ 0 then
    (s, RTMPResult.invalidParams, [])
  else if s.state ≠ RTMPState.streaming ∨ s.audio_codec_ctx = false then
    (s, RTMPResult.success, [])
  else
    encode_and_send_audio env s num_samples pts

/-- `rtmp_get_state` (ffmpeg_rtmp_bridge.c:737-739). -/
def rtmp_get_state (s : Session) : RTMPState := s.state

/-- `rtmp_get_bytes_sent` (ffmpeg_rtmp_bridge.c:745-747). -/
def rtmp_get_bytes_sent (s : Session) : Int := s.bytes_sent

/-- `rtmp_get_frames_sent` (ffmpeg_rtmp_bridge.c:749-751). -/
def rtmp_get_frames_sent (s : Session) : Int := s.frames_sent

/-- `rtmp_get_dropped_frames` (ffmpeg_rtmp_bridge.c:753-755). -/
def rtmp_get_dropped_frames (s : Session) : Int := s.dropped_frames

/-- An environment in which every external FFmpeg call succeeds and the
encoders emit nothing when drained. -/
def envAllOk : Env where
  packet_alloc_ok := true
  alloc_output_ok := true
  find_h264_ok := true
  new_video_stream_ok := true
  alloc_video_ctx_ok := true
  open_video_codec_ok := true
  video_params_ok := true
  alloc_video_frame_ok := true
  video_frame_buffer_ok := true
  sws_get_ok := true
  find_aac_ok := true
  new_audio_stream_ok := true
  alloc_audio_ctx_ok := true
  open_audio_codec_ok := true
  audio_params_ok := true
  alloc_audio_frame_ok := true
  audio_frame_buffer_ok := true
  swr_alloc_ok := true
  swr_init_ok := true
  format_nofile := false
  avio_open_ok := true
  write_header_ok := true
  video_frame_writable_ok := true
  video_send_frame_ok := true
  video_recv := []
  audio_frame_writable_ok := true
  swr_convert_ok := true
  audio_send_frame_ok := true
  audio_recv := []
  flush_recv := []
  now := 0

/-- A session freshly initialised with the spec's scenario config. -/
def sessInit : Session :=
  (rtmp_init_simple envAllOk initialSession 640 480 30 2000 2 44100 2 128).1

/-- A session connected with the spec's scenario config under `envAllOk`. -/
def sessConn : Session :=
  (rtmp_connect envAllOk sessInit "rtmp://a.example/live").1

/-- The Initialized session left behind by a connect whose header write
failed: it still holds the scaler, frames and audio pipeline resources. -/
def sessLeaked : Session :=
  (rtmp_connect { envAllOk with write_header_ok := false } sessInit
    "rtmp://a.example/live").1

/-- Recognise a muxer write tagged for the video stream. -/
def isVideoWrite : Event → Bool
  | Event.evWritePacket StreamTag.video _ => true
  | _ => false

/-- Number of video-stream muxer writes in an event trace. -/
def countVideoWrites (evs : List Event) : Nat :=
  (evs.filter isVideoWrite).length

/-- The three statistics counters of `a` are at most those of `b`. -/
def statsLe (a b : Session) : Prop :=
  a.bytes_sent ≤ b.bytes_sent ∧ a.frames_sent ≤ b.frames_sent ∧
    a.dropped_frames ≤ b.dropped_frames

lemma drainVideo_stats (steps : List RecvStep) : ∀ s : Session,
    statsLe s (drainVideo s steps).1 := by
  induction steps with
  | nil => intro s; simp [drainVideo, statsLe]
  | cons head tail ih =>
    intro s
    cases head with
    | stop => simp [drainVideo, statsLe]
    | fail => simp [drainVideo, statsLe, setError]
    | pkt size wok =>
      by_cases hw : wok = true
      · have h := ih { s with bytes_sent := s.bytes_sent + size }
        simp [drainVideo, hw, statsLe] at h ⊢
        omega
      · simp only [Bool.not_eq_true] at hw
        simp [drainVideo, hw, statsLe, setError]

lemma drainAudio_stats (steps : List RecvStep) : ∀ s : Session,
    statsLe s (drainAudio s steps).1 := by
  induction steps with
  | nil => intro s; simp [drainAudio, statsLe]
  | cons head tail ih =>
    intro s
    cases head with
    | stop => simp [drainAudio, statsLe]
    | fail => simp [drainAudio, statsLe]
    | pkt size wok =>
      by_cases hw : wok = true
      · have h := ih { s with bytes_sent := s.bytes_sent + size }
        simp [drainAudio, hw, statsLe] at h ⊢
        omega
      · simp only [Bool.not_eq_true] at hw
        simp [drainAudio, hw, statsLe]

lemma drainVideo_success_frames (steps : List RecvStep) : ∀ s : Session,
    (drainVideo s steps).2.1 = RTMPResult.success →
    (drainVideo s steps).1.frames_sent = s.frames_sent + 1 := by
  induction steps with
  | nil => intro s _; simp [drainVideo]
  | cons head tail ih =>
    intro s h
    cases head with
    | stop => simp [drainVideo]
    | fail => simp [drainVideo] at h
    | pkt size wok =>
      by_cases hw : wok = true
      · have h2 : (drainVideo { s with bytes_sent := s.bytes_sent + size } tail).2.1 =
            RTMPResult.success := by
          simpa [drainVideo, hw] using h
        have := ih { s with bytes_sent := s.bytes_sent + size } h2
        simpa [drainVideo, hw] using this
      · simp only [Bool.not_eq_true] at hw
        simp [drainVideo, hw] at h

lemma drainVideo_first_fail (size : Nat) (rest : List RecvStep) :
    ∀ (l1 : List RecvStep) (s : Session),
    (∀ x ∈ l1, ∃ n, x = RecvStep.pkt n true) →
    (drainVideo s (l1 ++ RecvStep.pkt size false :: rest)).2.1 = RTMPResult.sendFailed ∧
    (drainVideo s (l1 ++ RecvStep.pkt size false :: rest)).1.dropped_frames =
      s.dropped_frames + 1 ∧
    countVideoWrites (drainVideo s (l1 ++ RecvStep.pkt size false :: rest)).2.2 =
      l1.length + 1 := by
  intro l1
  induction l1 with
  | nil =>
    intro s _
    simp [drainVideo, countVideoWrites, isVideoWrite, setError]
  | cons x l1 ih =>
    intro s hx
    obtain ⟨n, rfl⟩ := hx x (by simp)
    have htail := ih { s with bytes_sent := s.bytes_sent + n }
      (fun y hy => hx y (by simp [hy]))
    refine ⟨?_, ?_, ?_⟩
    · simpa [drainVideo] using htail.1
    · simpa [drainVideo] using htail.2.1
    · have h3 := htail.2.2
      simp only [countVideoWrites] at h3
      simp [drainVideo, countVideoWrites, isVideoWrite, h3]

/-- C1 counterexample: initialising with `keyframeIntervalSec = 0` (all other
fields positive) returns Success and moves the state to Initialized, where the
claim predicts InvalidParams with the state left at Idle. -/
theorem init_keyframe_zero_succeeds :
    (rtmp_init_simple envAllOk initialSession 2 2 1 1 0 44100 2 128).2.1 =
        RTMPResult.success ∧
    rtmp_get_state (rtmp_init_simple envAllOk initialSession 2 2 1 1 0 44100 2 128).1 =
        RTMPState.initialized ∧
    RTMPResult.success ≠ RTMPResult.invalidParams := by
  decide

/-- C1 (corrected): `rtmp_init_simple` validates only the four video fields.
When width, height, fps and bitrateKbps are all strictly positive (and the
packet allocation succeeds), initialise returns Success and the state becomes
Initialized, whatever the keyframe/audio fields are; when any of the four
video fields is ≤ 0 the call returns InvalidParams and the session state is
unchanged. -/
theorem init_validates_video_fields (env env2 : Env) (s t : Session)
    (width height fps bitrate_kbps keyframe_interval audio_sample_rate
      audio_channels audio_bitrate_kbps w2 h2 f2 b2 k2 asr2 ac2 ab2 : Int)
    (halloc : env.packet_alloc_ok = true)
    (hw : 0 < width) (hh : 0 < height) (hf : 0 < fps) (hb : 0 < bitrate_kbps)
    (hneg : w2 ≤ 0 ∨ h2 ≤ 0 ∨ f2 ≤ 0 ∨ b2 ≤ 0) :
    ((rtmp_init_simple env s width height fps bitrate_kbps keyframe_interval
        audio_sample_rate audio_channels audio_bitrate_kbps).2.1 = RTMPResult.success ∧
      rtmp_get_state (rtmp_init_simple env s width height fps bitrate_kbps
        keyframe_interval audio_sample_rate audio_channels audio_bitrate_kbps).1 =
        RTMPState.initialized) ∧
    ((rtmp_init_simple env2 t w2 h2 f2 b2 k2 asr2 ac2 ab2).2.1 =
        RTMPResult.invalidParams ∧
      rtmp_get_state (rtmp_init_simple env2 t w2 h2 f2 b2 k2 asr2 ac2 ab2).1 =
        rtmp_get_state t) := by
  constructor
  · have hcond : ¬(width ≤ 0 ∨ height ≤ 0 ∨ fps ≤ 0 ∨ bitrate_kbps ≤ 0) := by omega
    simp [rtmp_init_simple, hcond, halloc, rtmp_get_state]
  · simp [rtmp_init_simple, hneg, rtmp_get_state, setError]

/-- Witness for `init_validates_video_fields` at a fully positive config and a
config with width 0. -/
theorem init_validates_video_fields_witness :
    ((rtmp_init_simple envAllOk initialSession 640 480 30 2000 2 44100 2 128).2.1 =
        RTMPResult.success ∧
      rtmp_get_state (rtmp_init_simple envAllOk initialSession 640 480 30 2000 2
        44100 2 128).1 = RTMPState.initialized) ∧
    ((rtmp_init_simple envAllOk initialSession 0 480 30 2000 2 44100 2 128).2.1 =
        RTMPResult.invalidParams ∧
      rtmp_get_state (rtmp_init_simple envAllOk initialSession 0 480 30 2000 2
        44100 2 128).1 = rtmp_get_state initialSession) :=
  init_validates_video_fields envAllOk envAllOk initialSession initialSession
    640 480 30 2000 2 44100 2 128 0 480 30 2000 2 44100 2 128
    (by decide) (by decide) (by decide) (by decide) (by decide) (by decide)

/-- C2 counterexample: `rtmp_stop_streaming` called while Connected (its
precondition state is Streaming) returns Success, not the NotConnected the
claim requires. -/
theorem stop_from_connected_returns_success :
    (rtmp_stop_streaming { initialSession with state := RTMPState.connected }).2.1 =
        RTMPResult.success ∧
    RTMPResult.success ≠ RTMPResult.notConnected := by
  decide

/-- C2 (corrected): a precondition-mismatched `rtmp_stop_streaming` or
`rtmp_disconnect` returns Success (never NotConnected).  `rtmp_stop_streaming`
leaves the session exactly unchanged with no external call.  `rtmp_disconnect`
outside Connected/Streaming (where the muxer context is absent — every path
that leaves those states clears it) makes no external call and leaves the
statistics, config, packet buffer, error slot, transport handle and start time
unchanged, but it unconditionally clears every pipeline resource field the
session may still hold (such as the scaler, frames and codec contexts leaked
by a failed connect) and forces the state to Initialized — so from Idle the
state does change, and an Initialized session is unchanged only in its
non-resource fields. -/
theorem mismatched_stop_disconnect (env : Env) (s t : Session)
    (hs : s.state ≠ RTMPState.streaming)
    (ht1 : t.state ≠ RTMPState.connected) (ht2 : t.state ≠ RTMPState.streaming)
    (hfc : t.format_ctx = false) :
    rtmp_stop_streaming s = (s, RTMPResult.success, []) ∧
    rtmp_disconnect env t =
      ({ t with
          sws_ctx := false
          swr_ctx := false
          video_frame := false
          audio_frame := false
          video_codec_ctx := false
          audio_codec_ctx := false
          format_ctx := false
          video_stream := false
          audio_stream := false
          state := RTMPState.initialized }, RTMPResult.success, []) := by
  refine ⟨by simp [rtmp_stop_streaming, hs], ?_⟩
  simp [rtmp_disconnect, hfc]

/-- Witness for `mismatched_stop_disconnect`: stop on a freshly initialised
session, and disconnect on the leaked Initialized session left by a failed
header write — the formerly held resources are cleared, everything else
(statistics, config, packet, error slot) is kept. -/
theorem mismatched_stop_disconnect_witness :
    rtmp_stop_streaming sessInit = (sessInit, RTMPResult.success, []) ∧
    rtmp_disconnect envAllOk sessLeaked =
      ({ sessLeaked with
          sws_ctx := false
          swr_ctx := false
          video_frame := false
          audio_frame := false
          video_codec_ctx := false
          audio_codec_ctx := false
          format_ctx := false
          video_stream := false
          audio_stream := false
          state := RTMPState.initialized }, RTMPResult.success, []) :=
  mismatched_stop_disconnect envAllOk sessInit sessLeaked
    (by decide) (by decide) (by decide) (by decide)

/-- C3 (code bug): when the container header write fails during
`rtmp_connect`, the call returns ConnectFailed and frees the codec and muxer
contexts, but the video frame, the scaler context and the whole audio pipeline
that this very call allocated remain held by the session — the pre-call
session `sessInit` held none of them, so the session is left half-constructed,
contradicting the claim. -/
theorem connect_header_fail_leaves_resources :
    (rtmp_connect { envAllOk with write_header_ok := false } sessInit
        "rtmp://a.example/live").2.1 = RTMPResult.connectFailed ∧
    (rtmp_connect { envAllOk with write_header_ok := false } sessInit
        "rtmp://a.example/live").1.video_frame = true ∧
    (rtmp_connect { envAllOk with write_header_ok := false } sessInit
        "rtmp://a.example/live").1.sws_ctx = true ∧
    (rtmp_connect { envAllOk with write_header_ok := false } sessInit
        "rtmp://a.example/live").1.audio_codec_ctx = true ∧
    (rtmp_connect { envAllOk with write_header_ok := false } sessInit
        "rtmp://a.example/live").1.audio_frame = true ∧
    (rtmp_connect { envAllOk with write_header_ok := false } sessInit
        "rtmp://a.example/live").1.swr_ctx = true ∧
    sessInit.video_frame = false ∧ sessInit.sws_ctx = false ∧
    sessInit.audio_codec_ctx = false ∧ sessInit.audio_frame = false ∧
    sessInit.swr_ctx = false ∧ sessInit.state = RTMPState.initialized := by
  decide

lemma send_video_reduces (env : Env) (s : Session) (data_size pts : Int)
    (hstate : s.state = RTMPState.streaming)
    (hsize : data_size = s.config.width * s.config.height * 4) :
    rtmp_send_video_frame env s false data_size pts = encode_and_send_video env s pts := by
  simp [rtmp_send_video_frame, hsize, hstate]

/-- C4 (confirmed): in Streaming with a correctly sized buffer, a successful
`sendVideoFrame` bumps framesSent by exactly 1 whatever the encoder emitted;
and when the encoder's packet sequence hits its first muxer-write failure, the
call returns SendFailed, droppedFrames grows by exactly 1, and exactly the
packets up to and including the failing one were handed to the muxer — none
after it. -/
theorem send_video_frame_stats (env env2 : Env) (s : Session)
    (data_size pts pts2 : Int) (l1 : List RecvStep) (size : Nat)
    (rest : List RecvStep)
    (hstate : s.state = RTMPState.streaming)
    (hsize : data_size = s.config.width * s.config.height * 4)
    (hsucc : (rtmp_send_video_frame env s false data_size pts).2.1 = RTMPResult.success)
    (hwr : env2.video_frame_writable_ok = true)
    (hsf : env2.video_send_frame_ok = true)
    (hrecv : env2.video_recv = l1 ++ RecvStep.pkt size false :: rest)
    (hpre : ∀ x ∈ l1, ∃ n, x = RecvStep.pkt n true) :
    rtmp_get_frames_sent (rtmp_send_video_frame env s false data_size pts).1 =
      rtmp_get_frames_sent s + 1 ∧
    (rtmp_send_video_frame env2 s false data_size pts2).2.1 = RTMPResult.sendFailed ∧
    rtmp_get_dropped_frames (rtmp_send_video_frame env2 s false data_size pts2).1 =
      rtmp_get_dropped_frames s + 1 ∧
    countVideoWrites (rtmp_send_video_frame env2 s false data_size pts2).2.2 =
      l1.length + 1 := by
  rw [send_video_reduces env s data_size pts hstate hsize] at hsucc ⊢
  rw [send_video_reduces env2 s data_size pts2 hstate hsize]
  have hfail := drainVideo_first_fail size rest l1 s hpre
  constructor
  · by_cases h1 : env.video_frame_writable_ok = true
    · by_cases h2 : env.video_send_frame_ok = true
      · have h3 : (drainVideo s env.video_recv).2.1 = RTMPResult.success := by
          simpa [encode_and_send_video, h1, h2] using hsucc
        have := drainVideo_success_frames env.video_recv s h3
        simpa [encode_and_send_video, h1, h2, rtmp_get_frames_sent] using this
      · simp only [Bool.not_eq_true] at h2
        simp [encode_and_send_video, h1, h2, setError] at hsucc
    · simp only [Bool.not_eq_true] at h1
      simp [encode_and_send_video, h1, setError] at hsucc
  · have hgoal : encode_and_send_video env2 s pts2 =
        ((drainVideo s env2.video_recv).1, (drainVideo s env2.video_recv).2.1,
          Event.evSwsScale :: Event.evSendFrame StreamTag.video ::
            (drainVideo s env2.video_recv).2.2) := by
      simp [encode_and_send_video, hwr, hsf]
    rw [hgoal, hrecv]
    refine ⟨hfail.1, ?_, ?_⟩
    · simpa [rtmp_get_dropped_frames] using hfail.2.1
    · have h3 := hfail.2.2
      simp only [countVideoWrites] at h3 ⊢
      simp [isVideoWrite, h3]

/-- Witness for `send_video_frame_stats`: a streaming session, a success
environment emitting two packets, and a failure environment whose second
packet's muxer write fails. -/
theorem send_video_frame_stats_witness :
    rtmp_get_frames_sent (rtmp_send_video_frame
        { envAllOk with video_recv := [RecvStep.pkt 11 true, RecvStep.pkt 9 true] }
        { sessInit with state := RTMPState.streaming } false 1228800 0).1 =
      rtmp_get_frames_sent { sessInit with state := RTMPState.streaming } + 1 ∧
    (rtmp_send_video_frame
        { envAllOk with video_recv := [RecvStep.pkt 11 true, RecvStep.pkt 9 false, RecvStep.pkt 5 true] }
        { sessInit with state := RTMPState.streaming } false 1228800 42).2.1 =
      RTMPResult.sendFailed ∧
    rtmp_get_dropped_frames (rtmp_send_video_frame
        { envAllOk with video_recv := [RecvStep.pkt 11 true, RecvStep.pkt 9 false, RecvStep.pkt 5 true] }
        { sessInit with state := RTMPState.streaming } false 1228800 42).1 =
      rtmp_get_dropped_frames { sessInit with state := RTMPState.streaming } + 1 ∧
    countVideoWrites (rtmp_send_video_frame
        { envAllOk with video_recv := [RecvStep.pkt 11 true, RecvStep.pkt 9 false, RecvStep.pkt 5 true] }
        { sessInit with state := RTMPState.streaming } false 1228800 42).2.2 =
      [RecvStep.pkt 11 true].length + 1 :=
  send_video_frame_stats
    { envAllOk with video_recv := [RecvStep.pkt 11 true, RecvStep.pkt 9 true] }
    { envAllOk with video_recv := [RecvStep.pkt 11 true, RecvStep.pkt 9 false, RecvStep.pkt 5 true] }
    { sessInit with state := RTMPState.streaming } 1228800 0 42
    [RecvStep.pkt 11 true] 9 [RecvStep.pkt 5 true]
    (by decide) (by decide) (by decide) (by decide) (by decide) (by decide)
    (fun x hx => by
      simp only [List.mem_singleton] at hx
      exact ⟨11, hx⟩)

/-- C5 counterexample: with the audio pipeline absent, `rtmp_send_audio` with
`num_samples = 0` (a non-null buffer) returns InvalidParams, not the Success
the claim requires for every call. -/
theorem send_audio_zero_samples_invalid :
    { sessInit with state := RTMPState.streaming }.audio_codec_ctx = false ∧
    (rtmp_send_audio envAllOk { sessInit with state := RTMPState.streaming }
        false 0 0).2.1 = RTMPResult.invalidParams ∧
    RTMPResult.invalidParams ≠ RTMPResult.success := by
  decide

/-- C5 (corrected): when the audio codec context is absent, every
`rtmp_send_audio` call with a non-null buffer and a positive sample count
returns Success, performs no external work, and leaves the whole session
(state, video resources, statistics) unchanged.  Calls with a null buffer or a
non-positive sample count instead fail with InvalidParams (still mutating
nothing). -/
theorem send_audio_absent_pipeline_noop (env : Env) (s : Session)
    (num_samples pts : Int)
    (hctx : s.audio_codec_ctx = false) (hn : 0 < num_samples) :
    rtmp_send_audio env s false num_samples pts = (s, RTMPResult.success, []) := by
  have h1 : ¬num_samples ≤ 0 := by omega
  simp [rtmp_send_audio, hctx, h1]

/-- Witness for `send_audio_absent_pipeline_noop` on a streaming session with
no audio pipeline. -/
theorem send_audio_absent_pipeline_noop_witness :
    rtmp_send_audio envAllOk { sessInit with state := RTMPState.streaming }
        false 1024 0 =
      ({ sessInit with state := RTMPState.streaming }, RTMPResult.success, []) :=
  send_audio_absent_pipeline_noop envAllOk
    { sessInit with state := RTMPState.streaming } 1024 0 (by decide) (by decide)

/-- C6 (confirmed): a non-null buffer whose length differs from
width*height*4 of the stored config makes `rtmp_send_video_frame` return
InvalidParams with no external call (no conversion, no encode, no muxer
write) and no change to any statistics counter or to the state. -/
theorem send_video_wrong_size_rejected (env : Env) (s : Session)
    (data_size pts : Int)
    (hsize : data_size ≠ s.config.width * s.config.height * 4) :
    (rtmp_send_video_frame env s false data_size pts).2.1 = RTMPResult.invalidParams ∧
    (rtmp_send_video_frame env s false data_size pts).2.2 = [] ∧
    rtmp_get_bytes_sent (rtmp_send_video_frame env s false data_size pts).1 =
      rtmp_get_bytes_sent s ∧
    rtmp_get_frames_sent (rtmp_send_video_frame env s false data_size pts).1 =
      rtmp_get_frames_sent s ∧
    rtmp_get_dropped_frames (rtmp_send_video_frame env s false data_size pts).1 =
      rtmp_get_dropped_frames s ∧
    rtmp_get_state (rtmp_send_video_frame env s false data_size pts).1 =
      rtmp_get_state s := by
  simp [rtmp_send_video_frame, hsize, setError, rtmp_get_bytes_sent,
    rtmp_get_frames_sent, rtmp_get_dropped_frames, rtmp_get_state]

/-- Witness for `send_video_wrong_size_rejected`: a streaming 640x480 session
given a buffer one byte short. -/
theorem send_video_wrong_size_rejected_witness :
    (rtmp_send_video_frame envAllOk { sessInit with state := RTMPState.streaming }
        false 1228799 0).2.1 = RTMPResult.invalidParams ∧
    (rtmp_send_video_frame envAllOk { sessInit with state := RTMPState.streaming }
        false 1228799 0).2.2 = [] ∧
    rtmp_get_bytes_sent (rtmp_send_video_frame envAllOk
        { sessInit with state := RTMPState.streaming } false 1228799 0).1 =
      rtmp_get_bytes_sent { sessInit with state := RTMPState.streaming } ∧
    rtmp_get_frames_sent (rtmp_send_video_frame envAllOk
        { sessInit with state := RTMPState.streaming } false 1228799 0).1 =
      rtmp_get_frames_sent { sessInit with state := RTMPState.streaming } ∧
    rtmp_get_dropped_frames (rtmp_send_video_frame envAllOk
        { sessInit with state := RTMPState.streaming } false 1228799 0).1 =
      rtmp_get_dropped_frames { sessInit with state := RTMPState.streaming } ∧
    rtmp_get_state (rtmp_send_video_frame envAllOk
        { sessInit with state := RTMPState.streaming } false 1228799 0).1 =
      rtmp_get_state { sessInit with state := RTMPState.streaming } :=
  send_video_wrong_size_rejected envAllOk
    { sessInit with state := RTMPState.streaming } 1228799 0 (by decide)

/-- C7 (confirmed): a correctly sized, non-null `rtmp_send_video_frame` call
in any state other than Streaming returns NotConnected and leaves framesSent
and bytesSent unchanged. -/
theorem send_video_not_streaming_rejected (env : Env) (s : Session)
    (data_size pts : Int)
    (hstate : s.state ≠ RTMPState.streaming)
    (hsize : data_size = s.config.width * s.config.height * 4) :
    (rtmp_send_video_frame env s false data_size pts).2.1 = RTMPResult.notConnected ∧
    rtmp_get_frames_sent (rtmp_send_video_frame env s false data_size pts).1 =
      rtmp_get_frames_sent s ∧
    rtmp_get_bytes_sent (rtmp_send_video_frame env s false data_size pts).1 =
      rtmp_get_bytes_sent s := by
  simp [rtmp_send_video_frame, hsize, hstate, setError, rtmp_get_frames_sent,
    rtmp_get_bytes_sent]

/-- Witness for `send_video_not_streaming_rejected` on the freshly initialised
(not yet streaming) 640x480 session with a correctly sized buffer. -/
theorem send_video_not_streaming_rejected_witness :
    (rtmp_send_video_frame envAllOk sessInit false 1228800 0).2.1 =
      RTMPResult.notConnected ∧
    rtmp_get_frames_sent (rtmp_send_video_frame envAllOk sessInit false 1228800 0).1 =
      rtmp_get_frames_sent sessInit ∧
    rtmp_get_bytes_sent (rtmp_send_video_frame envAllOk sessInit false 1228800 0).1 =
      rtmp_get_bytes_sent sessInit :=
  send_video_not_streaming_rejected envAllOk sessInit 1228800 0
    (by decide) (by decide)

/-- C8 (confirmed): when `rtmp_disconnect` runs on a session holding a muxer
context and a video encoder (the connected case), its external-call trace is
exactly: end-of-stream to the video encoder, then one muxer write per drained
flush packet, then the trailer write, then (for a non-NOFILE format) the
transport close — so the trailer is only written after the video flush is
drained to exhaustion. -/
theorem disconnect_drains_video_before_trailer (env : Env) (s : Session)
    (hfc : s.format_ctx = true) (hvc : s.video_codec_ctx = true) :
    (rtmp_disconnect env s).2.2 =
      Event.evSendEOF ::
        (env.flush_recv.map (fun size => Event.evWritePacket StreamTag.video size) ++
          Event.evWriteTrailer ::
            (if env.format_nofile then [] else [Event.evCloseIO])) := by
  cases hnf : env.format_nofile <;> simp [rtmp_disconnect, hfc, hvc, hnf]

/-- Witness for `disconnect_drains_video_before_trailer` on the connected
scenario session with two flush packets. -/
theorem disconnect_drains_video_before_trailer_witness :
    (rtmp_disconnect { envAllOk with flush_recv := [5, 3] } sessConn).2.2 =
      Event.evSendEOF ::
        (([5, 3].map (fun size => Event.evWritePacket StreamTag.video size)) ++
          Event.evWriteTrailer ::
            (if ({ envAllOk with flush_recv := [5, 3] } : Env).format_nofile then []
             else [Event.evCloseIO])) :=
  disconnect_drains_video_before_trailer { envAllOk with flush_recv := [5, 3] }
    sessConn (by decide) (by decide)

lemma init_video_encoder_stats (env : Env) (s : Session) :
    (init_video_encoder env s).1.bytes_sent = s.bytes_sent ∧
    (init_video_encoder env s).1.frames_sent = s.frames_sent ∧
    (init_video_encoder env s).1.dropped_frames = s.dropped_frames := by
  simp only [init_video_encoder, setError]
  split_ifs <;> simp

lemma init_audio_encoder_stats (env : Env) (s : Session) :
    (init_audio_encoder env s).1.bytes_sent = s.bytes_sent ∧
    (init_audio_encoder env s).1.frames_sent = s.frames_sent ∧
    (init_audio_encoder env s).1.dropped_frames = s.dropped_frames := by
  simp only [init_audio_encoder, setError]
  split_ifs <;> simp

lemma rtmp_connect_stats (env : Env) (s : Session) (url : String) :
    statsLe s (rtmp_connect env s url).1 := by
  have hv := init_video_encoder_stats env { s with format_ctx := true }
  have ha := init_audio_encoder_stats env
    (init_video_encoder env { s with format_ctx := true }).1
  simp only [statsLe, rtmp_connect, setError]
  split_ifs <;> simp_all

lemma rtmp_disconnect_stats (env : Env) (s : Session) :
    (rtmp_disconnect env s).1.bytes_sent = s.bytes_sent ∧
    (rtmp_disconnect env s).1.frames_sent = s.frames_sent ∧
    (rtmp_disconnect env s).1.dropped_frames = s.dropped_frames := by
  simp only [rtmp_disconnect]
  split_ifs <;> simp

lemma rtmp_send_video_frame_stats (env : Env) (s : Session) (rgba_null : Bool)
    (data_size pts : Int) :
    statsLe s (rtmp_send_video_frame env s rgba_null data_size pts).1 := by
  have hd := drainVideo_stats env.video_recv s
  simp only [statsLe] at hd ⊢
  simp only [rtmp_send_video_frame, encode_and_send_video, setError]
  split_ifs <;> simp_all

lemma rtmp_send_audio_stats (env : Env) (s : Session) (pcm_null : Bool)
    (num_samples pts : Int) :
    statsLe s (rtmp_send_audio env s pcm_null num_samples pts).1 := by
  have hd := drainAudio_stats env.audio_recv s
  simp only [statsLe] at hd ⊢
  simp only [rtmp_send_audio, encode_and_send_audio]
  split_ifs <;> simp_all

lemma rtmp_init_simple_reset (env : Env) (s : Session)
    (width height fps bitrate_kbps keyframe_interval audio_sample_rate
      audio_channels audio_bitrate_kbps : Int)
    (hsucc : (rtmp_init_simple env s width height fps bitrate_kbps
        keyframe_interval audio_sample_rate audio_channels
        audio_bitrate_kbps).2.1 = RTMPResult.success) :
    (rtmp_init_simple env s width height fps bitrate_kbps keyframe_interval
        audio_sample_rate audio_channels audio_bitrate_kbps).1.bytes_sent = 0 ∧
    (rtmp_init_simple env s width height fps bitrate_kbps keyframe_interval
        audio_sample_rate audio_channels audio_bitrate_kbps).1.frames_sent = 0 ∧
    (rtmp_init_simple env s width height fps bitrate_kbps keyframe_interval
        audio_sample_rate audio_channels audio_bitrate_kbps).1.dropped_frames = 0 := by
  simp only [rtmp_init_simple, setError] at hsucc ⊢
  split_ifs at hsucc ⊢ <;> simp_all

/-- C9 (confirmed): no public operation other than initialise ever decreases
bytesSent, framesSent or droppedFrames, and a successful re-initialise resets
all three to zero. -/
theorem stats_monotone_reset_only_by_init (env envi : Env) (s si : Session)
    (url : String) (rgba_null pcm_null : Bool)
    (data_size pts num_samples pts2 : Int)
    (w h f b k asr ac ab : Int)
    (hinit : (rtmp_init_simple envi si w h f b k asr ac ab).2.1 =
      RTMPResult.success) :
    statsLe s (rtmp_connect env s url).1 ∧
    statsLe s (rtmp_start_streaming env s).1 ∧
    statsLe s (rtmp_stop_streaming s).1 ∧
    statsLe s (rtmp_send_video_frame env s rgba_null data_size pts).1 ∧
    statsLe s (rtmp_send_audio env s pcm_null num_samples pts2).1 ∧
    statsLe s (rtmp_disconnect env s).1 ∧
    statsLe s (rtmp_cleanup env s).1 ∧
    rtmp_get_bytes_sent (rtmp_init_simple envi si w h f b k asr ac ab).1 = 0 ∧
    rtmp_get_frames_sent (rtmp_init_simple envi si w h f b k asr ac ab).1 = 0 ∧
    rtmp_get_dropped_frames (rtmp_init_simple envi si w h f b k asr ac ab).1 = 0 := by
  have hd := rtmp_disconnect_stats env s
  have hr := rtmp_init_simple_reset envi si w h f b k asr ac ab hinit
  refine ⟨rtmp_connect_stats env s url, ?_, ?_, rtmp_send_video_frame_stats env s
    rgba_null data_size pts, rtmp_send_audio_stats env s pcm_null num_samples pts2,
    ⟨le_of_eq hd.1.symm, le_of_eq hd.2.1.symm, le_of_eq hd.2.2.symm⟩, ?_, ?_, ?_, ?_⟩
  · simp only [statsLe, rtmp_start_streaming, setError]
    split_ifs <;> simp
  · simp only [statsLe, rtmp_stop_streaming]
    split_ifs <;> simp
  · simp only [statsLe, rtmp_cleanup]
    exact ⟨le_of_eq hd.1.symm, le_of_eq hd.2.1.symm, le_of_eq hd.2.2.symm⟩
  · simpa [rtmp_get_bytes_sent] using hr.1
  · simpa [rtmp_get_frames_sent] using hr.2.1
  · simpa [rtmp_get_dropped_frames] using hr.2.2

/-- Witness for `stats_monotone_reset_only_by_init` on a streaming session
with pending statistics and a successful re-initialise. -/
theorem stats_monotone_reset_only_by_init_witness :
    statsLe { sessInit with state := RTMPState.streaming }
      (rtmp_connect envAllOk { sessInit with state := RTMPState.streaming }
        "rtmp://a.example/live").1 ∧
    statsLe { sessInit with state := RTMPState.streaming }
      (rtmp_start_streaming envAllOk { sessInit with state := RTMPState.streaming }).1 ∧
    statsLe { sessInit with state := RTMPState.streaming }
      (rtmp_stop_streaming { sessInit with state := RTMPState.streaming }).1 ∧
    statsLe { sessInit with state := RTMPState.streaming }
      (rtmp_send_video_frame envAllOk { sessInit with state := RTMPState.streaming }
        false 1228800 0).1 ∧
    statsLe { sessInit with state := RTMPState.streaming }
      (rtmp_send_audio envAllOk { sessInit with state := RTMPState.streaming }
        false 1024 0).1 ∧
    statsLe { sessInit with state := RTMPState.streaming }
      (rtmp_disconnect envAllOk { sessInit with state := RTMPState.streaming }).1 ∧
    statsLe { sessInit with state := RTMPState.streaming }
      (rtmp_cleanup envAllOk { sessInit with state := RTMPState.streaming }).1 ∧
    rtmp_get_bytes_sent (rtmp_init_simple envAllOk sessConn 640 480 30 2000 2
      44100 2 128).1 = 0 ∧
    rtmp_get_frames_sent (rtmp_init_simple envAllOk sessConn 640 480 30 2000 2
      44100 2 128).1 = 0 ∧
    rtmp_get_dropped_frames (rtmp_init_simple envAllOk sessConn 640 480 30 2000 2
      44100 2 128).1 = 0 :=
  stats_monotone_reset_only_by_init envAllOk envAllOk
    { sessInit with state := RTMPState.streaming } sessConn
    "rtmp://a.example/live" false false 1228800 0 1024 0
    640 480 30 2000 2 44100 2 128 (by decide)

/-- C10 (confirmed): `rtmp_send_video_frame` checks the buffer size against
the stored config before the state check, so in every state a non-null buffer
of the wrong size yields InvalidParams (never NotConnected); and before any
initialise the zero-initialised config has width = height = 0, so every
non-null buffer with a non-zero size yields InvalidParams. -/
theorem size_check_precedes_state_check (env env2 : Env) (s : Session)
    (data_size pts data_size2 pts2 : Int)
    (h1 : data_size ≠ s.config.width * s.config.height * 4)
    (h2 : data_size2 ≠ 0) :
    (rtmp_send_video_frame env s false data_size pts).2.1 =
      RTMPResult.invalidParams ∧
    initialSession.config.width = 0 ∧
    initialSession.config.height = 0 ∧
    (rtmp_send_video_frame env2 initialSession false data_size2 pts2).2.1 =
      RTMPResult.invalidParams := by
  refine ⟨?_, rfl, rfl, ?_⟩
  · simp [rtmp_send_video_frame, h1, setError]
  · have h3 : data_size2 ≠
        initialSession.config.width * initialSession.config.height * 4 := by
      simpa [initialSession] using h2
    simp [rtmp_send_video_frame, h3, setError]

/-- Witness for `size_check_precedes_state_check`: a connected (not yet
streaming) session given a 7-byte buffer, and the untouched zero session given
a 1234-byte buffer. -/
theorem size_check_precedes_state_check_witness :
    (rtmp_send_video_frame envAllOk sessConn false 7 0).2.1 =
      RTMPResult.invalidParams ∧
    initialSession.config.width = 0 ∧
    initialSession.config.height = 0 ∧
    (rtmp_send_video_frame envAllOk initialSession false 1234 0).2.1 =
      RTMPResult.invalidParams :=
  size_check_precedes_state_check envAllOk envAllOk sessConn 7 0 1234 0
    (by decide) (by decide)

end RTMPBridge
